import Mathlib

/-!
Verification development for the battery-storage NPV cash-flow engine
(`src/main.py`).  The numeric core of the script is embedded over `ℚ`:
every series of the program (savings, depreciation, amortization,
stakeholder cash flows, discounted cumulative cash flow) becomes an
executable function from the year index to a rational amount, translated
line by line from the source.  The external `pyxirr` root-finder is not
part of the repository; where a claim depends on it, a definition
modelled from the specification is used and marked as such.
-/

namespace BatteryNPV

/-- The scalar inputs of one scenario evaluation, read from the sidebar of
`src/main.py` (rates already divided by 100 as the script does). -/
structure Config where
  investment : ℚ
  discount_rate : ℚ
  project_life : ℕ
  base_savings : ℚ
  escalation : ℚ
  savings_split : ℚ
  corp_tax : ℚ
  ira_credit_pct : ℚ
  bonus_depr_pct : ℚ
  finance_pct : ℚ
  loan_rate : ℚ
  loan_term : ℕ

/-- Discount factor `dfac = 1 / (1 + discount_rate) ** years`.  The script
performs the division unconditionally; at `discount_rate = -1` the float
code divides by zero (yielding `inf` with only a warning).  In the `ℚ`
model division by zero yields `0`, likewise without any error path. -/
def dfac (c : Config) (t : ℕ) : ℚ :=
  1 / (1 + c.discount_rate) ^ t

/-- `total_savings_arr`: zero at year 0, `base_savings * (1+escalation)**(t-1)`
for years `1..N`. -/
def total_savings_arr (c : Config) (t : ℕ) : ℚ :=
  if t = 0 then 0 else c.base_savings * (1 + c.escalation) ^ (t - 1)

/-- `eqore_savings = total_savings_arr * savings_split`. -/
def eqore_savings (c : Config) (t : ℕ) : ℚ :=
  total_savings_arr c t * c.savings_split

/-- `customer_gross_savings = total_savings_arr * (1 - savings_split)`. -/
def customer_gross_savings (c : Config) (t : ℕ) : ℚ :=
  total_savings_arr c t * (1 - c.savings_split)

/-- `ira_credit = ira_credit_pct * investment`. -/
def ira_credit (c : Config) : ℚ := c.ira_credit_pct * c.investment

/-- The fixed 5-year MACRS half-year table of the script. -/
def macrs_rates : List ℚ :=
  [20 / 100, 32 / 100, 192 / 1000, 1152 / 10000, 1152 / 10000, 576 / 10000]

/-- `depreciation_arr`: bonus depreciation `bonus_depr_pct * investment` at
year 0; MACRS rate `i` times the remaining basis `investment * (1 - bonus)`
placed at project year `i+1`, but only while `i+1` is inside the array of
length `project_life + 1` (the loop breaks past the horizon). -/
def depreciation_arr (c : Config) (t : ℕ) : ℚ :=
  if t = 0 then c.bonus_depr_pct * c.investment
  else if t ≤ 6 ∧ t ≤ c.project_life then
    macrs_rates.getD (t - 1) 0 * (c.investment * (1 - c.bonus_depr_pct))
  else 0

/-- `depreciation_tax_shield_arr = depreciation_arr * corp_tax`. -/
def depreciation_tax_shield_arr (c : Config) (t : ℕ) : ℚ :=
  depreciation_arr c t * c.corp_tax

/-- `loan_principal_amount = finance_pct * investment`. -/
def loan_principal_amount (c : Config) : ℚ := c.finance_pct * c.investment

/-- `down_payment = investment - loan_principal_amount`. -/
def down_payment (c : Config) : ℚ := c.investment - loan_principal_amount c

/-- `loan_pmt`: fixed annuity payment when the loan exists and the rate is
positive, straight division `principal / term` at rate 0 (the script's
`else` branch), and `0` when there is no loan. -/
def loan_pmt (c : Config) : ℚ :=
  if 0 < loan_principal_amount c ∧ 0 < c.loan_term then
    if 0 < c.loan_rate then
      loan_principal_amount c *
        (c.loan_rate * (1 + c.loan_rate) ^ c.loan_term /
          ((1 + c.loan_rate) ^ c.loan_term - 1))
    else loan_principal_amount c / (c.loan_term : ℚ)
  else 0

/-- The `1e-2` "effectively zero" threshold of the amortization loop. -/
def eps : ℚ := 1 / 100

/-- `current_interest = remaining_balance * loan_rate`. -/
def rawInterest (c : Config) (b : ℚ) : ℚ := b * c.loan_rate

/-- `current_principal = loan_pmt - current_interest if loan_rate > 0 else loan_pmt`. -/
def rawPrincipal (c : Config) (b : ℚ) : ℚ :=
  if 0 < c.loan_rate then loan_pmt c - rawInterest c b else loan_pmt c

/-- The principal after the script's clipping: if the residual balance is
within `±1e-2` the payment is clamped to the whole balance; if the payment
overshoots the balance it is likewise clamped. -/
def clippedPrincipal (c : Config) (b : ℚ) : ℚ :=
  if b - rawPrincipal c b < eps ∧ -eps < b - rawPrincipal c b then b
  else if b < rawPrincipal c b then b
  else rawPrincipal c b

/-- The interest after the script's clipping: it is recomputed as
`loan_pmt - principal` only in the overshoot branch (and forced to 0 there
when the rate is not positive), exactly as in the source. -/
def clippedInterest (c : Config) (b : ℚ) : ℚ :=
  if b - rawPrincipal c b < eps ∧ -eps < b - rawPrincipal c b then rawInterest c b
  else if b < rawPrincipal c b then
    (if 0 < c.loan_rate then loan_pmt c - b else 0)
  else rawInterest c b

/-- The guard under which the amortization loop body runs in year `t`:
the loan exists, `t` is within the loan term and inside the year array
(the loop breaks at `y_idx >= len(years)`), and the remaining balance is
above the `1e-2` threshold (the loop breaks at `remaining_balance <= 1e-2`). -/
def amortStepActive (c : Config) (t : ℕ) (b : ℚ) : Prop :=
  0 < loan_principal_amount c ∧ 0 < c.loan_term ∧ t ≤ c.loan_term ∧
    t ≤ c.project_life ∧ eps < b

instance (c : Config) (t : ℕ) (b : ℚ) : Decidable (amortStepActive c t b) := by
  unfold amortStepActive; infer_instance

/-- `remaining_balance c t` is the loan balance after the loop has processed
years `1..t`; the loop body runs exactly under `amortStepActive`. -/
def remaining_balance (c : Config) : ℕ → ℚ
  | 0 => loan_principal_amount c
  | t + 1 =>
    if amortStepActive c (t + 1) (remaining_balance c t) then
      remaining_balance c t - clippedPrincipal c (remaining_balance c t)
    else remaining_balance c t

/-- `principal_payments[t]`: the clipped principal paid in year `t`, zero
outside the loop. -/
def principal_payments (c : Config) : ℕ → ℚ
  | 0 => 0
  | t + 1 =>
    if amortStepActive c (t + 1) (remaining_balance c t) then
      clippedPrincipal c (remaining_balance c t)
    else 0

/-- `interest_payments[t]`: the (possibly recomputed) interest paid in
year `t`, zero outside the loop. -/
def interest_payments (c : Config) : ℕ → ℚ
  | 0 => 0
  | t + 1 =>
    if amortStepActive c (t + 1) (remaining_balance c t) then
      clippedInterest c (remaining_balance c t)
    else 0

/-- `interest_tax_shield_arr = interest_payments * corp_tax`. -/
def interest_tax_shield_arr (c : Config) (t : ℕ) : ℚ :=
  interest_payments c t * c.corp_tax

/-- `financing_cash_flow`: `+loan_principal_amount` at year 0, minus the
total loan payment in each active year. -/
def financing_cash_flow (c : Config) (t : ℕ) : ℚ :=
  if t = 0 then loan_principal_amount c
  else -(interest_payments c t + principal_payments c t)

/-- `eqore_cf = eqore_savings.copy()`. -/
def eqore_cf (c : Config) (t : ℕ) : ℚ := eqore_savings c t

/-- `customer_cf`: year 0 is
`-investment + ira_credit + loan_principal_amount + depreciation_tax_shield_arr[0]`;
years `1..N` are the levered equity formula
`(customer_gross_savings - interest) * (1 - corp_tax) + depreciation_tax_shield - principal`. -/
def customer_cf (c : Config) (t : ℕ) : ℚ :=
  if t = 0 then
    -c.investment + ira_credit c + loan_principal_amount c +
      depreciation_tax_shield_arr c 0
  else
    (customer_gross_savings c t - interest_payments c t) * (1 - c.corp_tax) +
      depreciation_tax_shield_arr c t - principal_payments c t

/-- `total_project_cf = eqore_cf + customer_cf`. -/
def total_project_cf (c : Config) (t : ℕ) : ℚ :=
  eqore_cf c t + customer_cf c t

/-- `eqore_npv = (eqore_cf * dfac).sum()`. -/
def eqore_npv (c : Config) : ℚ :=
  ∑ t in Finset.range (c.project_life + 1), eqore_cf c t * dfac c t

/-- `customer_npv = (customer_cf * dfac).sum()`. -/
def customer_npv (c : Config) : ℚ :=
  ∑ t in Finset.range (c.project_life + 1), customer_cf c t * dfac c t

/-- `total_project_npv = (total_project_cf * dfac).sum()`. -/
def total_project_npv (c : Config) : ℚ :=
  ∑ t in Finset.range (c.project_life + 1), total_project_cf c t * dfac c t

/-- The `1e-9` tolerance of the discounted-payback search. -/
def tol : ℚ := 1 / 1000000000

/-- `discounted_customer_cf = customer_cf * dfac`. -/
def discounted_customer_cf (c : Config) (t : ℕ) : ℚ :=
  customer_cf c t * dfac c t

/-- `cumulative_discounted_cf = np.cumsum(discounted_customer_cf)`. -/
def cumulative_discounted_cf (c : Config) (t : ℕ) : ℚ :=
  ∑ i in Finset.range (t + 1), discounted_customer_cf c i

/-- The four strings the payback branch of the script can produce:
`"Year 0 (Immediate)"`, the fallback `"Year 0"`, `"Year {y}"`, `"Never"`. -/
inductive PaybackDisplay where
  | immediate : PaybackDisplay
  | yearZeroFallback : PaybackDisplay
  | year : ℕ → PaybackDisplay
  | never : PaybackDisplay
  deriving DecidableEq

/-- `np.where(cumulative_discounted_cf >= -1e-9)[0]` restricted to its first
element: the least index `t < n` with `-tol ≤ cumulative_discounted_cf t`,
scanning the year array from index 0 upward. -/
def firstNonnegIndex (c : Config) : ℕ → Option ℕ
  | 0 => none
  | n + 1 =>
    match firstNonnegIndex c n with
    | some y => some y
    | none => if -tol ≤ cumulative_discounted_cf c n then some n else none

/-- `payback_period_display`, following the branch structure of the script:
`"Never"` when no index qualifies, else the first qualifying index `y`,
displayed as `"Year 0 (Immediate)"` when `y = 0` and the year-0 cash flow is
itself `≥ -1e-9`, as the fallback `"Year 0"` otherwise, and as `"Year {y}"`
for `y > 0`. -/
def payback_period_display (c : Config) : PaybackDisplay :=
  match firstNonnegIndex c (c.project_life + 1) with
  | none => .never
  | some y =>
    if y = 0 then
      if -tol ≤ customer_cf c 0 then .immediate else .yearZeroFallback
    else .year y

/-- The value a metric display can take: a rate, the `"N/A (no solution)"`
outcome for a `None` return, or the `"N/A (error: ...)"` outcome produced
by the `except` branch. -/
inductive MetricDisplay where
  | value : ℚ → MetricDisplay
  | noSolution : MetricDisplay
  | failure : String → MetricDisplay
  deriving DecidableEq

/-- The `try/except` wrapper around `xirr`: an exception becomes
`"N/A (error: ...)"`, a `None` return becomes `"N/A (no solution)"`, a value
is displayed.  The `pyxirr` solver itself is external to the repository and
is represented by its outcome. -/
def customer_irr_display (o : Except String (Option ℚ)) : MetricDisplay :=
  match o with
  | .error e => .failure e
  | .ok none => .noSolution
  | .ok (some v) => .value v

/-- The `try/except` wrapper around `mirr`, identical in shape to the IRR
wrapper. -/
def customer_mirr_display (o : Except String (Option ℚ)) : MetricDisplay :=
  match o with
  | .error e => .failure e
  | .ok none => .noSolution
  | .ok (some v) => .value v

/-- The dates the script hands to `xirr`:
`pd.date_range(start_date, periods=N+1, freq="YE")` lists the first `N+1`
calendar year-ends on or after the evaluation date, and the first entry is
then overwritten with the evaluation date itself
(`dates.iloc[0] = start_date`).  So year 0 sits at day offset 0, the first
year-end is discarded, and year `t ≥ 1` sits at the `(t+1)`-st of those
year-ends, `g + 365*t` days out, where `g` is the number of days from the
evaluation date to the first year-end: `g` ranges over `[0, 364]` (0 when
the evaluation date is itself a Dec 31) and varies with the calendar date
of evaluation.  Leap days are ignored, so consecutive year-ends sit 365
days apart in the model. -/
def irr_day_offsets (g : ℚ) (t : ℕ) : ℚ :=
  if t = 0 then 0 else g + 365 * (t : ℚ)

/-- The outputs of one scenario evaluation, as assembled by the script:
per-stakeholder and total series, their NPVs, the day offsets handed to the
IRR solver, the IRR/MIRR displays, and the payback display. -/
structure CashFlowResult where
  customerSeries : ℕ → ℚ
  eqoreSeries : ℕ → ℚ
  totalSeries : ℕ → ℚ
  customerNPV : ℚ
  eqoreNPV : ℚ
  totalNPV : ℚ
  irrDayOffsets : ℕ → ℚ
  irrDisplay : MetricDisplay
  mirrDisplay : MetricDisplay
  payback : PaybackDisplay

/-- One evaluation of the engine.  `g` fixes the calendar anchoring of the
IRR dates (it varies with the evaluation date); `oIrr` and `oMirr` are the
outcomes of the two external root-finder calls. -/
def evaluate (c : Config) (g : ℚ) (oIrr oMirr : Except String (Option ℚ)) :
    CashFlowResult :=
  ⟨customer_cf c, eqore_cf c, total_project_cf c,
    customer_npv c, eqore_npv c, total_project_npv c,
    irr_day_offsets g,
    customer_irr_display oIrr, customer_mirr_display oMirr,
    payback_period_display c⟩

/-- Modelled from the spec: the root condition of the external `xirr` — a
rate `r` is an IRR of the customer series when the sum of the cash flows
discounted over fractional years `days/365` vanishes. -/
noncomputable def xnpv (c : Config) (g : ℚ) (r : ℝ) : ℝ :=
  ∑ t in Finset.range (c.project_life + 1),
    (customer_cf c t : ℝ) * (1 + r) ^ (-((irr_day_offsets g t : ℝ)) / 365)

/-! ### Concrete scenario configurations used in the theorems below -/

/-- Scenario A of the spec: investment 186900, discount 4.5%, life 15,
savings 94000, escalation 3%, split 50%, tax 28%, credit 30%, bonus 40%,
financed 80%, rate 9%, term 3. -/
def scenarioA : Config :=
  ⟨186900, 45 / 1000, 15, 94000, 3 / 100, 1 / 2, 28 / 100, 30 / 100,
    40 / 100, 80 / 100, 9 / 100, 3⟩

/-- Scenario B of the spec: a zero-interest loan of half of a 100000
investment over 4 years inside a 5-year horizon. -/
def scenarioB : Config :=
  ⟨100000, 0, 5, 0, 0, 0, 0, 0, 0, 1 / 2, 0, 4⟩

/-- A one-year scenario whose loan principal is 0.005, i.e. below the
`1e-2` threshold at which the amortization loop already regards the balance
as retired. -/
def scenarioTiny : Config :=
  ⟨1 / 100, 0, 1, 0, 0, 0, 0, 0, 0, 1 / 2, 0, 1⟩

/-- A one-year all-cash scenario with customer cash flows `-100` then
`110`, used to exhibit the calendar dependence of the IRR. -/
def scenarioDates : Config :=
  ⟨100, 0, 1, 110, 0, 0, 0, 0, 0, 0, 0, 1⟩

/-- The sidebar defaults of the script with the discount rate set to
`-100%`, the configuration the spec says must be rejected. -/
def scenarioRateNegOne : Config :=
  ⟨1885715 / 10, -1, 20, 28000, 59 / 1000, 1 / 2, 21 / 100, 30 / 100, 1,
    80 / 100, 5 / 100, 5⟩

/-- A degenerate zero scenario whose cumulative discounted cash flow is 0
already at year 0. -/
def scenarioZero : Config :=
  ⟨0, 0, 1, 0, 0, 0, 0, 0, 0, 0, 0, 1⟩

/-! ### Helper lemmas -/

lemma dfac_zero (c : Config) : dfac c 0 = 1 := by simp [dfac]

lemma cumulative_discounted_cf_zero (c : Config) :
    cumulative_discounted_cf c 0 = customer_cf c 0 := by
  simp [cumulative_discounted_cf, discounted_customer_cf, dfac_zero]

lemma firstNonnegIndex_none_iff (c : Config) (n : ℕ) :
    firstNonnegIndex c n = none ↔
      ∀ t < n, cumulative_discounted_cf c t < -tol := by
  induction n with
  | zero => simp [firstNonnegIndex]
  | succ n ih =>
    rw [firstNonnegIndex]
    cases h : firstNonnegIndex c n with
    | some y =>
      simp only
      constructor
      · intro hc; exact absurd hc (by simp)
      · intro hall
        have hnone : firstNonnegIndex c n = none :=
          ih.mpr (fun t ht => hall t (Nat.lt_succ_of_lt ht))
        rw [h] at hnone; exact absurd hnone (by simp)
    | none =>
      simp only
      split_ifs with hcond
      · constructor
        · intro hc; exact absurd hc (by simp)
        · intro hall
          exact absurd hcond (not_le.mpr (hall n (Nat.lt_succ_self n)))
      · constructor
        · intro _ t ht
          rcases Nat.lt_succ_iff_lt_or_eq.mp ht with ht' | rfl
          · exact ih.mp h t ht'
          · exact lt_of_not_le hcond
        · intro _; rfl

lemma firstNonnegIndex_some (c : Config) (n y : ℕ)
    (h : firstNonnegIndex c n = some y) :
    y < n ∧ -tol ≤ cumulative_discounted_cf c y ∧
      ∀ t < y, cumulative_discounted_cf c t < -tol := by
  induction n with
  | zero => simp [firstNonnegIndex] at h
  | succ n ih =>
    rw [firstNonnegIndex] at h
    cases h2 : firstNonnegIndex c n with
    | some z =>
      rw [h2] at h
      obtain rfl : z = y := by injection h
      obtain ⟨h1, h2, h3⟩ := ih h2
      exact ⟨Nat.lt_succ_of_lt h1, h2, h3⟩
    | none =>
      rw [h2] at h
      split_ifs at h with hcond
      · obtain rfl : n = y := by injection h
        exact ⟨Nat.lt_succ_self n, hcond,
          fun t ht => (firstNonnegIndex_none_iff c n).mp h2 t ht⟩

lemma firstNonnegIndex_eq_some (c : Config) (n y : ℕ) (hy : y < n)
    (hcum : -tol ≤ cumulative_discounted_cf c y)
    (hmin : ∀ t < y, cumulative_discounted_cf c t < -tol) :
    firstNonnegIndex c n = some y := by
  cases h : firstNonnegIndex c n with
  | none => exact absurd ((firstNonnegIndex_none_iff c n).mp h y hy) (not_lt.mpr hcum)
  | some z =>
    obtain ⟨hz, hz2, hz3⟩ := firstNonnegIndex_some c n z h
    rcases lt_trichotomy z y with hlt | rfl | hgt
    · exact absurd (hmin z hlt) (not_lt.mpr hz2)
    · rfl
    · exact absurd (hz3 y hgt) (not_lt.mpr hcum)

lemma remaining_balance_succ (c : Config) (t : ℕ) :
    remaining_balance c (t + 1) =
      remaining_balance c t - principal_payments c (t + 1) := by
  rw [remaining_balance, principal_payments]
  split_ifs with h
  · rfl
  · ring

lemma loan_pmt_rate_le (c : Config) (hP : 0 < loan_principal_amount c)
    (hi : 0 ≤ c.loan_rate) (hT : 1 ≤ c.loan_term) :
    c.loan_rate * loan_principal_amount c ≤ loan_pmt c := by
  rw [loan_pmt, if_pos ⟨hP, by omega⟩]
  rcases lt_or_eq_of_le hi with hi' | hi'
  · rw [if_pos hi']
    have hq : 1 < (1 + c.loan_rate) ^ c.loan_term :=
      one_lt_pow₀ (by linarith) (by omega)
    have hq0 : 0 < (1 + c.loan_rate) ^ c.loan_term - 1 := by linarith
    have key : c.loan_rate ≤
        c.loan_rate * (1 + c.loan_rate) ^ c.loan_term /
          ((1 + c.loan_rate) ^ c.loan_term - 1) := by
      rw [le_div_iff₀ hq0]
      nlinarith [hi'.le]
    calc c.loan_rate * loan_principal_amount c
        = loan_principal_amount c * c.loan_rate := by ring
      _ ≤ loan_principal_amount c *
            (c.loan_rate * (1 + c.loan_rate) ^ c.loan_term /
              ((1 + c.loan_rate) ^ c.loan_term - 1)) :=
          mul_le_mul_of_nonneg_left key hP.le
  · rw [if_neg (by rw [← hi']; exact lt_irrefl 0), ← hi', zero_mul]
    exact div_nonneg hP.le (Nat.cast_nonneg _)

lemma loan_pmt_nonneg (c : Config) (hP : 0 < loan_principal_amount c)
    (hi : 0 ≤ c.loan_rate) (hT : 1 ≤ c.loan_term) : 0 ≤ loan_pmt c :=
  le_trans (mul_nonneg hi hP.le) (loan_pmt_rate_le c hP hi hT)

lemma rawPrincipal_nonneg (c : Config) (hP : 0 < loan_principal_amount c)
    (hi : 0 ≤ c.loan_rate) (hT : 1 ≤ c.loan_term) (b : ℚ)
    (hb : b ≤ loan_principal_amount c) : 0 ≤ rawPrincipal c b := by
  rw [rawPrincipal]
  split_ifs with h
  · have h1 : c.loan_rate * b ≤ c.loan_rate * loan_principal_amount c :=
      mul_le_mul_of_nonneg_left hb hi
    have h2 := loan_pmt_rate_le c hP hi hT
    have h3 : b * c.loan_rate = c.loan_rate * b := mul_comm _ _
    rw [rawInterest]
    linarith
  · exact loan_pmt_nonneg c hP hi hT

lemma clippedPrincipal_le_self (c : Config) (b : ℚ) :
    clippedPrincipal c b ≤ b := by
  rw [clippedPrincipal]
  split_ifs with h1 h2
  · exact le_refl b
  · exact le_refl b
  · exact not_lt.mp h2

lemma clippedPrincipal_nonneg (c : Config) (hP : 0 < loan_principal_amount c)
    (hi : 0 ≤ c.loan_rate) (hT : 1 ≤ c.loan_term) (b : ℚ) (hb0 : 0 ≤ b)
    (hbP : b ≤ loan_principal_amount c) : 0 ≤ clippedPrincipal c b := by
  rw [clippedPrincipal]
  split_ifs with h1 h2
  · exact hb0
  · exact hb0
  · exact rawPrincipal_nonneg c hP hi hT b hbP

lemma remaining_balance_bounds (c : Config) (hP : 0 < loan_principal_amount c)
    (hi : 0 ≤ c.loan_rate) (hT : 1 ≤ c.loan_term) (t : ℕ) :
    0 ≤ remaining_balance c t ∧
      remaining_balance c t ≤ loan_principal_amount c := by
  induction t with
  | zero => exact ⟨hP.le, le_refl _⟩
  | succ t ih =>
    rw [remaining_balance]
    split_ifs with h
    · constructor
      · have h1 := clippedPrincipal_le_self c (remaining_balance c t)
        linarith
      · have h2 := clippedPrincipal_nonneg c hP hi hT _ ih.1 ih.2
        linarith [ih.2]
    · exact ih

lemma remaining_balance_mono (c : Config) (hP : 0 < loan_principal_amount c)
    (hi : 0 ≤ c.loan_rate) (hT : 1 ≤ c.loan_term) (t : ℕ) :
    remaining_balance c (t + 1) ≤ remaining_balance c t := by
  rw [remaining_balance]
  split_ifs with h
  · have h2 := clippedPrincipal_nonneg c hP hi hT _
      (remaining_balance_bounds c hP hi hT t).1
      (remaining_balance_bounds c hP hi hT t).2
    linarith
  · exact le_refl _

lemma sum_principal_payments (c : Config) (k : ℕ) :
    ∑ t in Finset.range (k + 1), principal_payments c t =
      loan_principal_amount c - remaining_balance c k := by
  induction k with
  | zero => simp [principal_payments, remaining_balance]
  | succ k ih =>
    rw [Finset.sum_range_succ, ih, remaining_balance_succ]
    ring

/-- The unclipped balance recurrence of the amortization loop: interest
accrues on the balance and the fixed payment is taken; this is the exact
mathematical trajectory the loop follows while no clipping fires. -/
def schedBalance (c : Config) : ℕ → ℚ
  | 0 => loan_principal_amount c
  | t + 1 => (1 + c.loan_rate) * schedBalance c t - loan_pmt c

lemma schedBalance_closed (c : Config) (hP : 0 < loan_principal_amount c)
    (hi : 0 < c.loan_rate) (hT : 1 ≤ c.loan_term) (t : ℕ) :
    schedBalance c t * ((1 + c.loan_rate) ^ c.loan_term - 1) =
      loan_principal_amount c *
        ((1 + c.loan_rate) ^ c.loan_term - (1 + c.loan_rate) ^ t) := by
  have hq : 1 < (1 + c.loan_rate) ^ c.loan_term :=
    one_lt_pow₀ (by linarith) (by omega)
  have hq0 : (1 + c.loan_rate) ^ c.loan_term - 1 ≠ 0 := by
    intro h; rw [sub_eq_zero] at h; exact absurd h.symm (ne_of_lt hq)
  have hpmt : loan_pmt c * ((1 + c.loan_rate) ^ c.loan_term - 1) =
      loan_principal_amount c * (c.loan_rate * (1 + c.loan_rate) ^ c.loan_term) := by
    rw [loan_pmt, if_pos ⟨hP, by omega⟩, if_pos hi]
    field_simp
  induction t with
  | zero => rw [schedBalance]; ring
  | succ t ih =>
    have expand : ((1 + c.loan_rate) * schedBalance c t - loan_pmt c) *
        ((1 + c.loan_rate) ^ c.loan_term - 1) =
        (1 + c.loan_rate) *
          (schedBalance c t * ((1 + c.loan_rate) ^ c.loan_term - 1)) -
          loan_pmt c * ((1 + c.loan_rate) ^ c.loan_term - 1) := by ring
    rw [schedBalance, expand, ih, hpmt]
    ring

lemma schedBalance_zero_rate (c : Config) (hP : 0 < loan_principal_amount c)
    (hi : c.loan_rate = 0) (hT : 1 ≤ c.loan_term) (t : ℕ) :
    schedBalance c t =
      loan_principal_amount c -
        t * (loan_principal_amount c / (c.loan_term : ℚ)) := by
  have hpmt : loan_pmt c = loan_principal_amount c / (c.loan_term : ℚ) := by
    rw [loan_pmt, if_pos ⟨hP, by omega⟩, if_neg (by rw [hi]; exact lt_irrefl 0)]
  induction t with
  | zero => simp [schedBalance]
  | succ t ih =>
    rw [schedBalance, hpmt, ih, hi]
    push_cast
    ring

lemma schedBalance_term (c : Config) (hP : 0 < loan_principal_amount c)
    (hi : 0 ≤ c.loan_rate) (hT : 1 ≤ c.loan_term) :
    schedBalance c c.loan_term = 0 := by
  rcases lt_or_eq_of_le hi with hi' | hi'
  · have h := schedBalance_closed c hP hi' hT c.loan_term
    have hq : 1 < (1 + c.loan_rate) ^ c.loan_term :=
      one_lt_pow₀ (by linarith) (by omega)
    have hq0 : (1 + c.loan_rate) ^ c.loan_term - 1 ≠ 0 := by
      intro h0; rw [sub_eq_zero] at h0; exact absurd h0.symm (ne_of_lt hq)
    have h2 : schedBalance c c.loan_term *
        ((1 + c.loan_rate) ^ c.loan_term - 1) = 0 := by
      rw [h]; ring
    exact (mul_eq_zero.mp h2).resolve_right hq0
  · rw [schedBalance_zero_rate c hP hi'.symm hT c.loan_term]
    have hT0 : (c.loan_term : ℚ) ≠ 0 := Nat.cast_ne_zero.mpr (by omega)
    field_simp

lemma residual_eq (c : Config) (hi : 0 ≤ c.loan_rate) (b : ℚ) :
    b - rawPrincipal c b = (1 + c.loan_rate) * b - loan_pmt c := by
  rw [rawPrincipal]
  split_ifs with h
  · rw [rawInterest]; ring
  · have h0 : c.loan_rate = 0 := le_antisymm (not_lt.mp h) hi
    rw [h0]; ring

lemma remaining_balance_sched_or_small (c : Config)
    (hP : 0 < loan_principal_amount c) (hi : 0 ≤ c.loan_rate)
    (hT : 1 ≤ c.loan_term) (hTN : c.loan_term ≤ c.project_life) :
    ∀ t, t ≤ c.loan_term →
      remaining_balance c t = schedBalance c t ∨
        remaining_balance c t ≤ eps := by
  intro t
  induction t with
  | zero => intro _; exact Or.inl rfl
  | succ t ih =>
    intro ht
    rcases ih (by omega) with hsched | hsmall
    · by_cases hb : eps < remaining_balance c t
      · have hact : amortStepActive c (t + 1) (remaining_balance c t) :=
          ⟨hP, by omega, ht, by omega, hb⟩
        rw [remaining_balance, if_pos hact, clippedPrincipal]
        split_ifs with h1 h2
        · right; rw [sub_self]; norm_num [eps]
        · right; rw [sub_self]; norm_num [eps]
        · left
          rw [residual_eq c hi, hsched, schedBalance]
      · right
        rw [remaining_balance, if_neg (fun hact => hb hact.2.2.2.2)]
        exact not_lt.mp hb
    · right
      rw [remaining_balance,
        if_neg (fun hact => absurd hact.2.2.2.2 (not_lt.mpr hsmall))]
      exact hsmall

lemma depreciation_arr_succ (c : Config) (i : ℕ) (hi : i < c.project_life) :
    depreciation_arr c (i + 1) =
      if i + 1 ≤ 6 then
        macrs_rates.getD i 0 * (c.investment * (1 - c.bonus_depr_pct))
      else 0 := by
  rw [depreciation_arr, if_neg (by omega)]
  by_cases h : i + 1 ≤ 6
  · rw [if_pos ⟨h, by omega⟩, if_pos h]
    norm_num
  · rw [if_neg (by tauto), if_neg h]

lemma depreciation_sum (c : Config) :
    ∑ t in Finset.range (c.project_life + 1), depreciation_arr c t =
      c.bonus_depr_pct * c.investment +
        (∑ i in Finset.range (min 6 c.project_life), macrs_rates.getD i 0) *
          (c.investment * (1 - c.bonus_depr_pct)) := by
  rw [Finset.sum_range_succ']
  have h0 : depreciation_arr c 0 = c.bonus_depr_pct * c.investment := by
    simp [depreciation_arr]
  have hsum : ∑ i in Finset.range c.project_life, depreciation_arr c (i + 1) =
      ∑ i in Finset.range (min 6 c.project_life),
        macrs_rates.getD i 0 * (c.investment * (1 - c.bonus_depr_pct)) := by
    rcases le_total c.project_life 6 with hN | hN
    · rw [min_eq_right hN]
      refine Finset.sum_congr rfl fun i hi => ?_
      rw [Finset.mem_range] at hi
      rw [depreciation_arr_succ c i hi, if_pos (by omega)]
    · rw [min_eq_left hN]
      rw [← Finset.sum_subset (Finset.range_subset.mpr hN) ?_]
      · refine Finset.sum_congr rfl fun i hi => ?_
        rw [Finset.mem_range] at hi
        rw [depreciation_arr_succ c i (by omega), if_pos (by omega)]
      · intro i hiN hi6
        rw [Finset.mem_range] at hiN
        rw [Finset.mem_range, not_lt] at hi6
        rw [depreciation_arr_succ c i hiN, if_neg (by omega)]
  rw [h0, hsum, ← Finset.sum_mul]
  ring

lemma macrs_partial_sum_bounds (k : ℕ) (hk : k ≤ 6) :
    0 ≤ ∑ i in Finset.range k, macrs_rates.getD i 0 ∧
      (∑ i in Finset.range k, macrs_rates.getD i 0) ≤ 1 := by
  interval_cases k <;>
    norm_num [macrs_rates, List.getD, Finset.sum_range_succ]

/-! ### Claim theorems -/

/-- C1: for every configuration the customer cash-flow series is the levered
equity formulation — at year 0 it is
`-Investment + ira_credit_pct*Investment + LoanPrincipal + DepreciationTaxShield[0]`,
and at each year `y` in `1..N` it is
`(CustomerGrossSavings[y] - Interest[y]) * (1 - corp_tax) + DepreciationTaxShield[y] - PrincipalPaid[y]`. -/
theorem customer_cf_levered_equity (c : Config) :
    customer_cf c 0 =
      -c.investment + c.ira_credit_pct * c.investment + loan_principal_amount c +
        depreciation_tax_shield_arr c 0 ∧
    ∀ y, 1 ≤ y → y ≤ c.project_life →
      customer_cf c y =
        (customer_gross_savings c y - interest_payments c y) * (1 - c.corp_tax) +
          depreciation_tax_shield_arr c y - principal_payments c y := by
  constructor
  · simp [customer_cf, ira_credit]
  · intro y hy _
    rw [customer_cf, if_neg (by omega)]

/-- Witness for C1: the levered equity formula instantiated in year 1 of
Scenario A. -/
theorem customer_cf_levered_equity_witness :
    customer_cf scenarioA 1 =
      (customer_gross_savings scenarioA 1 - interest_payments scenarioA 1) *
          (1 - scenarioA.corp_tax) +
        depreciation_tax_shield_arr scenarioA 1 - principal_payments scenarioA 1 :=
  (customer_cf_levered_equity scenarioA).2 1 (by norm_num) (by norm_num [scenarioA])

/-- C7: the gross savings series is zero at year 0 and
`base_savings * (1+escalation)^(t-1)` in years `1..N` (year 1 is the
unescalated base year); the EQORE series is the gross series times the
split and the customer gross series the gross series times the complement,
pointwise for every year of the horizon. -/
theorem savings_profile_spec (c : Config) :
    total_savings_arr c 0 = 0 ∧
    (∀ t, 1 ≤ t → t ≤ c.project_life →
      total_savings_arr c t = c.base_savings * (1 + c.escalation) ^ (t - 1)) ∧
    (∀ t, t ≤ c.project_life →
      eqore_savings c t = total_savings_arr c t * c.savings_split) ∧
    (∀ t, t ≤ c.project_life →
      customer_gross_savings c t = total_savings_arr c t * (1 - c.savings_split)) := by
  refine ⟨by simp [total_savings_arr], fun t ht _ => ?_, fun t _ => rfl, fun t _ => rfl⟩
  rw [total_savings_arr, if_neg (by omega)]

/-- Witness for C7: year 2 of Scenario A carries one year of escalation. -/
theorem savings_profile_spec_witness :
    total_savings_arr scenarioA 2 =
      scenarioA.base_savings * (1 + scenarioA.escalation) ^ (2 - 1) :=
  (savings_profile_spec scenarioA).2.1 2 (by norm_num) (by norm_num [scenarioA])

/-- C9: in Scenario A the loan principal is exactly 149520, the down
payment exactly 37380, and the year-0 customer cash flow is exactly
`-186900 + 0.30*186900 + 149520 + 0.40*186900*0.28`. -/
theorem scenarioA_headline_numbers :
    loan_principal_amount scenarioA = 149520 ∧
    down_payment scenarioA = 37380 ∧
    customer_cf scenarioA 0 =
      -186900 + (30 / 100) * 186900 + 149520 + (40 / 100) * 186900 * (28 / 100) := by
  norm_num [loan_principal_amount, down_payment, customer_cf, ira_credit,
    depreciation_tax_shield_arr, depreciation_arr, scenarioA]

/-- C10: at every year of the horizon, year 0 included, the total project
cash flow is exactly the EQORE cash flow plus the customer cash flow. -/
theorem total_cf_is_stakeholder_sum (c : Config) (t : ℕ)
    (_ht : t ≤ c.project_life) :
    total_project_cf c t = eqore_cf c t + customer_cf c t := rfl

/-- Witness for C10: the additivity at year 0 of Scenario A. -/
theorem total_cf_is_stakeholder_sum_witness :
    total_project_cf scenarioA 0 = eqore_cf scenarioA 0 + customer_cf scenarioA 0 :=
  total_cf_is_stakeholder_sum scenarioA 0 (by norm_num [scenarioA])

/-- C6: a root-finder failure surfaces as an explicit not-available display
carrying the diagnostic reason (exception message or "no solution"), for
IRR and MIRR alike, and the remaining fields of the result are the same
whatever the root-finder outcomes are. -/
theorem irr_mirr_failures_isolated (c : Config) (g : ℚ)
    (oIrr oMirr oIrr2 oMirr2 : Except String (Option ℚ)) (e : String) :
    customer_irr_display (Except.error e) = MetricDisplay.failure e ∧
    customer_irr_display (Except.ok none) = MetricDisplay.noSolution ∧
    customer_mirr_display (Except.error e) = MetricDisplay.failure e ∧
    customer_mirr_display (Except.ok none) = MetricDisplay.noSolution ∧
    (evaluate c g oIrr oMirr).customerSeries = customer_cf c ∧
    (evaluate c g oIrr oMirr).customerNPV = customer_npv c ∧
    (evaluate c g oIrr oMirr).eqoreNPV = eqore_npv c ∧
    (evaluate c g oIrr oMirr).totalNPV = (evaluate c g oIrr2 oMirr2).totalNPV ∧
    (evaluate c g oIrr oMirr).payback = (evaluate c g oIrr2 oMirr2).payback :=
  ⟨rfl, rfl, rfl, rfl, rfl, rfl, rfl, rfl, rfl⟩

/-- C3 (code bug, demonstrated on the embedded code): the engine performs
no configuration validation; at `discount_rate = -1` the discount-factor
denominator `(1+r)^t` is zero for every `t ≥ 1` and the script divides by
it anyway (floats: `inf` with only a runtime warning; in the `ℚ` model the
division yields 0), while the rest of the series is still produced —
nothing is rejected, contrary to the claim. -/
theorem no_rejection_at_rate_neg_one :
    1 + scenarioRateNegOne.discount_rate = 0 ∧
    dfac scenarioRateNegOne 0 = 1 ∧
    dfac scenarioRateNegOne 1 = 0 ∧
    total_savings_arr scenarioRateNegOne 1 = scenarioRateNegOne.base_savings := by
  norm_num [dfac, total_savings_arr, scenarioRateNegOne]

/-- C2 (amended): for a positive loan principal, non-negative rate and a
term `1 ≤ T ≤ N`, the remaining balance is non-negative and monotonically
non-increasing, the principal payments over years `1..T` sum to the loan
principal within the `1e-2` threshold, and the balance after year `T` is at
most that threshold — the value below which the loop itself treats the loan
as retired.  (The balance is exactly zero in the generic case, but a
principal at or below the threshold is never paid down at all, so exact
zero cannot be claimed for every configuration.) -/
theorem amortization_invariants_and_retirement (c : Config)
    (hP : 0 < loan_principal_amount c) (hi : 0 ≤ c.loan_rate)
    (hT : 1 ≤ c.loan_term) (hTN : c.loan_term ≤ c.project_life) :
    (∀ t, 0 ≤ remaining_balance c t) ∧
    (∀ t, remaining_balance c (t + 1) ≤ remaining_balance c t) ∧
    |(∑ t in Finset.range (c.loan_term + 1), principal_payments c t) -
        loan_principal_amount c| ≤ eps ∧
    remaining_balance c c.loan_term ≤ eps := by
  have heps : (0 : ℚ) ≤ eps := by norm_num [eps]
  have hend : remaining_balance c c.loan_term ≤ eps := by
    rcases remaining_balance_sched_or_small c hP hi hT hTN c.loan_term
        le_rfl with h | h
    · rw [h, schedBalance_term c hP hi hT]; exact heps
    · exact h
  refine ⟨fun t => (remaining_balance_bounds c hP hi hT t).1,
    fun t => remaining_balance_mono c hP hi hT t, ?_, hend⟩
  rw [sum_principal_payments c c.loan_term, abs_le]
  have h0 := (remaining_balance_bounds c hP hi hT c.loan_term).1
  constructor <;> linarith

/-- Witness for C2: the zero-interest Scenario B loan (50000 over 4 years)
is retired within the threshold and its balance stays non-negative. -/
theorem amortization_invariants_and_retirement_witness :
    remaining_balance scenarioB scenarioB.loan_term ≤ eps ∧
    0 ≤ remaining_balance scenarioB 2 :=
  ⟨(amortization_invariants_and_retirement scenarioB
      (by norm_num [loan_principal_amount, scenarioB]) (by norm_num [scenarioB])
      (by norm_num [scenarioB]) (by norm_num [scenarioB])).2.2.2,
    (amortization_invariants_and_retirement scenarioB
      (by norm_num [loan_principal_amount, scenarioB]) (by norm_num [scenarioB])
      (by norm_num [scenarioB]) (by norm_num [scenarioB])).1 2⟩

/-- Counterexample to C2 as stated: a loan principal of 0.005 is positive
and its term (1 year) is within the horizon, yet the loop's
`remaining_balance <= 1e-2` break fires immediately, so no principal is
ever paid and the balance never reaches zero — it stays 0.005 through and
after the final loan year. -/
theorem amortization_tiny_principal_counterexample :
    0 < loan_principal_amount scenarioTiny ∧
    1 ≤ scenarioTiny.loan_term ∧
    scenarioTiny.loan_term ≤ scenarioTiny.project_life ∧
    remaining_balance scenarioTiny 0 = 1 / 200 ∧
    remaining_balance scenarioTiny scenarioTiny.loan_term = 1 / 200 ∧
    (1 : ℚ) / 200 ≠ 0 ∧
    (∑ t in Finset.range (scenarioTiny.loan_term + 1),
      principal_payments scenarioTiny t) = 0 := by
  norm_num [remaining_balance, principal_payments, amortStepActive,
    loan_principal_amount, eps, Finset.sum_range_succ, scenarioTiny]

/-- C8: for non-negative investment and bonus fraction in `[0,1]`, the
depreciation actually placed within the horizon — the year-0 bonus plus the
declining-balance entries at years `1..min(6,N)` — sums to
`bonus*I + (placed MACRS rates)*(I*(1-bonus))` (entries beyond the horizon
are simply dropped, with no carry-forward) and never exceeds the
investment. -/
theorem depreciation_sum_within_investment (c : Config)
    (hI : 0 ≤ c.investment) (_hb0 : 0 ≤ c.bonus_depr_pct)
    (hb1 : c.bonus_depr_pct ≤ 1) :
    (∑ t in Finset.range (c.project_life + 1), depreciation_arr c t =
      c.bonus_depr_pct * c.investment +
        (∑ i in Finset.range (min 6 c.project_life), macrs_rates.getD i 0) *
          (c.investment * (1 - c.bonus_depr_pct))) ∧
    (∑ t in Finset.range (c.project_life + 1), depreciation_arr c t) ≤
      c.investment := by
  obtain ⟨hS0, hS1⟩ :=
    macrs_partial_sum_bounds (min 6 c.project_life) (min_le_left _ _)
  refine ⟨depreciation_sum c, ?_⟩
  rw [depreciation_sum c]
  have hbasis : 0 ≤ c.investment * (1 - c.bonus_depr_pct) :=
    mul_nonneg hI (by linarith)
  have hle : (∑ i in Finset.range (min 6 c.project_life), macrs_rates.getD i 0) *
      (c.investment * (1 - c.bonus_depr_pct)) ≤
      c.investment * (1 - c.bonus_depr_pct) :=
    mul_le_of_le_one_left hbasis hS1
  nlinarith [hle]

/-- Witness for C8: the horizon-placed depreciation of Scenario A stays
below its investment. -/
theorem depreciation_sum_within_investment_witness :
    (∑ t in Finset.range (scenarioA.project_life + 1),
      depreciation_arr scenarioA t) ≤ scenarioA.investment :=
  (depreciation_sum_within_investment scenarioA (by norm_num [scenarioA])
    (by norm_num [scenarioA]) (by norm_num [scenarioA])).2

/-- C5: the discounted payback is the smallest year `t` whose cumulative
discounted customer cash flow is `≥ 0` within the `1e-9` tolerance: it is
"Year 0 (Immediate)" when that smallest `t` is 0, "Year t" when `0 < t ≤ N`,
and "Never" when no year of the horizon qualifies. -/
theorem payback_is_first_nonneg_cumulative (c : Config) :
    (payback_period_display c = PaybackDisplay.never ↔
      ∀ t ≤ c.project_life, cumulative_discounted_cf c t < -tol) ∧
    (∀ t0, t0 ≤ c.project_life → -tol ≤ cumulative_discounted_cf c t0 →
      (∀ t < t0, cumulative_discounted_cf c t < -tol) →
      payback_period_display c =
        if t0 = 0 then PaybackDisplay.immediate else PaybackDisplay.year t0) := by
  constructor
  · rw [payback_period_display]
    cases h : firstNonnegIndex c (c.project_life + 1) with
    | none =>
      rw [firstNonnegIndex_none_iff] at h
      exact iff_of_true rfl (fun t ht => h t (by omega))
    | some y =>
      obtain ⟨hy, hy2, _⟩ := firstNonnegIndex_some c _ y h
      show (if y = 0 then
          if -tol ≤ customer_cf c 0 then PaybackDisplay.immediate
          else PaybackDisplay.yearZeroFallback
        else PaybackDisplay.year y) = PaybackDisplay.never ↔ _
      refine iff_of_false ?_ ?_
      · split_ifs <;> simp
      · intro hall
        exact absurd (hall y (by omega)) (not_lt.mpr hy2)
  · intro t0 ht0 hcum hmin
    rw [payback_period_display,
      firstNonnegIndex_eq_some c (c.project_life + 1) t0 (by omega) hcum hmin]
    show (if t0 = 0 then
        if -tol ≤ customer_cf c 0 then PaybackDisplay.immediate
        else PaybackDisplay.yearZeroFallback
      else PaybackDisplay.year t0) = _
    rcases Nat.eq_zero_or_pos t0 with rfl | hpos
    · rw [if_pos rfl, if_pos rfl,
        if_pos (by rw [← cumulative_discounted_cf_zero]; exact hcum)]
    · rw [if_neg (by omega), if_neg (by omega)]

/-- Witness for C5: the zero scenario pays back immediately — its
cumulative discounted cash flow is 0 already at year 0. -/
theorem payback_is_first_nonneg_cumulative_witness :
    payback_period_display scenarioZero = PaybackDisplay.immediate := by
  have h := (payback_is_first_nonneg_cumulative scenarioZero).2 0
    (by norm_num [scenarioZero])
    (by norm_num [cumulative_discounted_cf, Finset.sum_range_one,
      discounted_customer_cf, customer_cf, ira_credit, loan_principal_amount,
      depreciation_tax_shield_arr, depreciation_arr, dfac, tol, scenarioZero])
    (fun t ht => absurd ht (by omega))
  simpa using h

/-- C4 (amended): every field of the result other than the IRR day offsets
(and hence the IRR, which is computed from them) is unchanged when only the
evaluation date changes. -/
theorem result_date_independent_except_irr (c : Config) (g g' : ℚ)
    (oIrr oMirr : Except String (Option ℚ)) :
    (evaluate c g oIrr oMirr).customerSeries = (evaluate c g' oIrr oMirr).customerSeries ∧
    (evaluate c g oIrr oMirr).eqoreSeries = (evaluate c g' oIrr oMirr).eqoreSeries ∧
    (evaluate c g oIrr oMirr).totalSeries = (evaluate c g' oIrr oMirr).totalSeries ∧
    (evaluate c g oIrr oMirr).customerNPV = (evaluate c g' oIrr oMirr).customerNPV ∧
    (evaluate c g oIrr oMirr).eqoreNPV = (evaluate c g' oIrr oMirr).eqoreNPV ∧
    (evaluate c g oIrr oMirr).totalNPV = (evaluate c g' oIrr oMirr).totalNPV ∧
    (evaluate c g oIrr oMirr).mirrDisplay = (evaluate c g' oIrr oMirr).mirrDisplay ∧
    (evaluate c g oIrr oMirr).payback = (evaluate c g' oIrr oMirr).payback :=
  ⟨rfl, rfl, rfl, rfl, rfl, rfl, rfl, rfl⟩

/-- Counterexample to C4 as stated: with cash flows `-100` (today) and
`110` (a year later), the rate 10% has zero day-count NPV when the script
runs on a Dec 31 (`g = 0`, so the year-1 flow is dated 365 days out), but a
strictly non-zero one when it runs 73 days before a year-end (`g = 73`, the
year-1 flow dated `73 + 365 = 438` days out) — the IRR genuinely depends on
the calendar date of evaluation, because the script anchors year 0 at
`pd.to_datetime("today")` and dates the later flows at the year-ends that
follow it. -/
theorem irr_depends_on_evaluation_date :
    xnpv scenarioDates 0 (1 / 10) = 0 ∧ xnpv scenarioDates 73 (1 / 10) ≠ 0 := by
  have hc0 : customer_cf scenarioDates 0 = -100 := by
    norm_num [customer_cf, ira_credit, loan_principal_amount,
      depreciation_tax_shield_arr, depreciation_arr, scenarioDates]
  have hc1 : customer_cf scenarioDates 1 = 110 := by
    norm_num [customer_cf, customer_gross_savings, total_savings_arr,
      interest_payments, principal_payments, remaining_balance, amortStepActive,
      loan_principal_amount, depreciation_tax_shield_arr, depreciation_arr, eps,
      scenarioDates]
  have hN : scenarioDates.project_life = 1 := rfl
  have hbase : (1 : ℝ) + 1 / 10 = 11 / 10 := by norm_num
  constructor
  · rw [xnpv, hN, Finset.sum_range_succ, Finset.sum_range_one, hc0, hc1, hbase]
    have e0 : -((irr_day_offsets 0 0 : ℚ) : ℝ) / 365 = 0 := by
      norm_num [irr_day_offsets]
    have e1 : -((irr_day_offsets 0 1 : ℚ) : ℝ) / 365 = -1 := by
      norm_num [irr_day_offsets]
    rw [e0, e1, Real.rpow_zero, Real.rpow_neg_one]
    norm_num
  · rw [xnpv, hN, Finset.sum_range_succ, Finset.sum_range_one, hc0, hc1, hbase]
    have e0 : -((irr_day_offsets 73 0 : ℚ) : ℝ) / 365 = 0 := by
      norm_num [irr_day_offsets]
    have e1 : -((irr_day_offsets 73 1 : ℚ) : ℝ) / 365 = -(6 / 5) := by
      norm_num [irr_day_offsets]
    rw [e0, e1, Real.rpow_zero]
    intro h
    have hx : ((11 / 10 : ℝ)) ^ (-(6 / 5) : ℝ) = 10 / 11 := by linarith
    have h1 : ((11 / 10 : ℝ)) ^ ((-(6 / 5) : ℝ) * 5) =
        (((11 / 10 : ℝ)) ^ (-(6 / 5) : ℝ)) ^ (5 : ℝ) :=
      Real.rpow_mul (by norm_num) _ _
    rw [show ((-(6 / 5) : ℝ) * 5) = -6 by norm_num, hx] at h1
    have hL : ((11 / 10 : ℝ)) ^ (-6 : ℝ) = 1000000 / 1771561 := by
      rw [show (-6 : ℝ) = ((-6 : ℤ) : ℝ) by norm_num, Real.rpow_intCast]
      norm_num
    have hR : ((10 / 11 : ℝ)) ^ (5 : ℝ) = 100000 / 161051 := by
      rw [show (5 : ℝ) = ((5 : ℕ) : ℝ) by norm_num, Real.rpow_natCast]
      norm_num
    rw [hL, hR] at h1
    norm_num at h1

end BatteryNPV
